import Mathlib

/-!
Shallow embedding of the malpractice-monitoring engine of the Callify
repository (src/hooks/useMalpracticeMonitor.ts) and proofs about it.

Modelling conventions:
- JS numbers used for coordinates and ratios are modelled as rationals
  (exact arithmetic); timestamps (Date.now) are integers in milliseconds.
- React ref cells (noFaceSinceRef, edgeSinceRef) and the published state
  fields become fields of an explicit `EngineState` record; a detection
  tick becomes a pure function from an environment (what the DOM and the
  adapter report this tick) and a state to a new state plus two booleans
  recording whether the adapter was invoked and whether a next tick was
  scheduled.
- A React state updater `setFlags (prev => e)` is modelled by the pure
  function of `prev` it applies; the source returning `prev` itself
  (reference equality, hence no update notification) is modelled by the
  function returning its argument.
- Promise-based memoization of the TensorFlow modules is modelled as a
  small state machine over abstract promise identifiers, with a counter
  of how many initializations were started.
-/

namespace Callify

/-- The three flag types of `MalpracticeFlagType` in the source. -/
inductive MalpracticeFlagType
  | multipleFacesDetected
  | noFaceDetected
  | faceNearFrameEdge
  deriving DecidableEq, Repr

/-- The `MalpracticeFlag` record: type, message and the `since` timestamp. -/
structure MalpracticeFlag where
  type : MalpracticeFlagType
  message : String
  since : Int
  deriving DecidableEq, Repr

/-- Which detection backend an adapter wraps (`DetectorSource`). -/
inductive DetectorSource
  | native
  | fallback
  deriving DecidableEq, Repr

/-- Constant `DETECTION_INTERVAL_MS = 750`. -/
def DETECTION_INTERVAL_MS : Int := 750

/-- Constant `NO_FACE_THRESHOLD_MS = 3_000`. -/
def NO_FACE_THRESHOLD_MS : Int := 3000

/-- Constant `EDGE_THRESHOLD_MS = 1_500`. -/
def EDGE_THRESHOLD_MS : Int := 1500

/-- Constant `EDGE_MARGIN_RATIO = 0.08`. -/
def EDGE_MARGIN_RATIO : ℚ := 8 / 100

/-- The `FLAG_MESSAGES` record of user-facing strings. -/
def FLAG_MESSAGES : MalpracticeFlagType → String
  | .multipleFacesDetected =>
      "Multiple faces detected in frame. Possible impersonation."
  | .noFaceDetected =>
      "No face detected for several seconds. Head may be out of frame."
  | .faceNearFrameEdge =>
      "Face detected at the edge of the frame. Adjust position."

/-- The `FLAG_PRIORITY` ordering of the source. -/
def FLAG_PRIORITY : List MalpracticeFlagType :=
  [.multipleFacesDetected, .noFaceDetected, .faceNearFrameEdge]

/-- An axis-aligned bounding box, the relevant part of `DOMRectReadOnly`:
x, y, width, height in frame-pixel coordinates. -/
structure BoundingBox where
  x : ℚ
  y : ℚ
  width : ℚ
  height : ℚ
  deriving DecidableEq, Repr

/-- The `DetectionResult` record wrapping a bounding box. -/
structure DetectionResult where
  boundingBox : BoundingBox
  deriving DecidableEq, Repr

/-- Bounding-box area, as computed inline in the sort comparator of
`runDetection` (width times height). -/
def boxArea (b : BoundingBox) : ℚ := b.width * b.height

/-- The comparator of the sort in `runDetection`: `(a, b) => areaB - areaA`
sorts descending by area; as a boolean "may precede" relation this is
`area of b ≤ area of a`. -/
def areaDescLE (a b : DetectionResult) : Bool :=
  decide (boxArea b.boundingBox ≤ boxArea a.boundingBox)

/-- Lines 406-415 of the source: `faces.length > 1 ? [...faces].sort(...)
: faces`, a stable sort descending by area (JS `Array.prototype.sort` is
stable). -/
def orderFaces (faces : List DetectionResult) : List DetectionResult :=
  if faces.length > 1 then faces.mergeSort areaDescLE else faces

/-- The map `new Map(prev.map((flag) => [flag.type, flag]))` followed by
`.get(type)`: a JS Map built from pairs keeps the last entry for a
duplicated key, so lookup finds the last flag of the given type. -/
def previousByTypeGet (prev : List MalpracticeFlag)
    (t : MalpracticeFlagType) : Option MalpracticeFlag :=
  prev.reverse.find? (fun f => decide (f.type = t))

/-- The updater applied by `updateFlags` (lines 274-302): filter
`FLAG_PRIORITY` to the requested types; if the result matches the previous
list in length and per-index type, return `prev` itself; otherwise rebuild,
reusing the previous flag of each type and stamping fresh types with the
given timestamp. -/
def updateFlagsList (types : List MalpracticeFlagType) (timestamp : Int)
    (prev : List MalpracticeFlag) : List MalpracticeFlag :=
  let prioritizedTypes := FLAG_PRIORITY.filter (fun t => decide (t ∈ types))
  if prioritizedTypes.length = prev.length ∧
      (prioritizedTypes.zip prev).all (fun p => decide (p.1 = p.2.type)) then
    prev
  else
    prioritizedTypes.map (fun t =>
      match previousByTypeGet prev t with
      | some existing => existing
      | none => { type := t, message := FLAG_MESSAGES t, since := timestamp })

/-- The updater applied by `resetFlags` (line 305): `prev.length ? [] :
prev`; an already-empty list is returned as the very argument (reference
equality in the source, hence no update notification). -/
def resetFlagsList (prev : List MalpracticeFlag) : List MalpracticeFlag :=
  if prev.length ≠ 0 then [] else prev

/-- The mutable monitoring state relevant to a detection tick: the
published `flags`, the two condition-timer refs, and the published status
fields touched by the fatal-error path. -/
structure EngineState where
  flags : List MalpracticeFlag
  noFaceSince : Option Int
  edgeSince : Option Int
  error : Option String
  isMonitoring : Bool
  detectorAvailable : Bool
  detectorSource : Option DetectorSource
  deriving DecidableEq, Repr

/-- Full effect of `resetFlags` (lines 304-308): apply `resetFlagsList` to
the published list and null both condition-timer refs. -/
def resetFlags (s : EngineState) : EngineState :=
  { s with flags := resetFlagsList s.flags,
           noFaceSince := none, edgeSince := none }

/-- Result of evaluating one detection snapshot (lines 416-464): the
candidate flag list and the new values of the two condition timers. -/
structure EvalResult where
  nextFlags : List MalpracticeFlagType
  noFaceSince : Option Int
  edgeSince : Option Int
  deriving DecidableEq, Repr

/-- The edge test of lines 439-448: fractional position of the primary
box against the 8 percent margin. -/
def touchesEdge (b : BoundingBox) (videoWidth videoHeight : ℚ) : Prop :=
  b.x / videoWidth ≤ EDGE_MARGIN_RATIO ∨
  b.y / videoHeight ≤ EDGE_MARGIN_RATIO ∨
  (b.x + b.width) / videoWidth ≥ 1 - EDGE_MARGIN_RATIO ∨
  (b.y + b.height) / videoHeight ≥ 1 - EDGE_MARGIN_RATIO

instance (b : BoundingBox) (vw vh : ℚ) : Decidable (touchesEdge b vw vh) := by
  unfold touchesEdge; infer_instance

/-- The flag-engine step of `runDetection` (lines 416-464), acting on the
ordered snapshot, the current timestamp, the intrinsic video dimensions and
the two condition timers. The zero-face branch arms the no-face timer and
clears the edge timer; the face-present branch clears the no-face timer,
flags multiple faces, and runs the debounced edge test (only when both
dimensions are nonzero, mirroring the JS truthiness guard
`if (videoWidth && videoHeight)`; otherwise the edge timer is left
untouched). -/
def evalSnapshot (orderedFaces : List DetectionResult) (now : Int)
    (videoWidth videoHeight : ℚ)
    (noFaceSince edgeSince : Option Int) : EvalResult :=
  match orderedFaces with
  | [] =>
    let nfs : Int := match noFaceSince with | none => now | some t => t
    let nextFlags : List MalpracticeFlagType :=
      if now - nfs ≥ NO_FACE_THRESHOLD_MS then [.noFaceDetected] else []
    ⟨nextFlags, some nfs, none⟩
  | primary :: rest =>
    let nextFlags0 : List MalpracticeFlagType :=
      if rest.length + 1 > 1 then [.multipleFacesDetected] else []
    if videoWidth ≠ 0 ∧ videoHeight ≠ 0 then
      if touchesEdge primary.boundingBox videoWidth videoHeight then
        let es : Int := match edgeSince with | none => now | some t => t
        let nextFlags :=
          if now - es ≥ EDGE_THRESHOLD_MS ∧
              MalpracticeFlagType.multipleFacesDetected ∉ nextFlags0 then
            nextFlags0 ++ [.faceNearFrameEdge]
          else nextFlags0
        ⟨nextFlags, none, some es⟩
      else ⟨nextFlags0, none, none⟩
    else ⟨nextFlags0, none, edgeSince⟩

/-- What the environment reports for one invocation of `runDetection`:
the cancellation flag at entry, whether the detector and video refs are
still set, whether a stream is bound to the video surface, its readiness
and intrinsic dimensions, the outcome of `detect` (a throw carries its
message), whether cancellation was observed while awaiting `detect`, and
the timestamp `Date.now()` taken after `detect` resolves. -/
structure CycleEnv where
  cancelled : Bool
  hasDetector : Bool
  hasVideo : Bool
  srcObjectBound : Bool
  readyState : Nat
  videoWidth : ℚ
  videoHeight : ℚ
  detectResult : Except String (List DetectionResult)
  cancelledDuringDetect : Bool
  now : Int
  deriving Repr

/-- Outcome of one `runDetection` invocation: the new state, whether the
adapter `detect` call was made, and whether a next tick was scheduled. -/
structure CycleResult where
  state : EngineState
  adapterInvoked : Bool
  rescheduled : Bool
  deriving DecidableEq, Repr

/-- One invocation of `runDetection` (lines 382-492). Guard order follows
the source: cancelled or missing refs is a terminal no-op; no bound stream
resets flags and reschedules; readyState below 2 or zero video width skips
and reschedules; otherwise `detect` runs, its result is ordered, evaluated,
and published via `updateFlags` or `resetFlags`; a throw (with cancellation
not observed) sets the error, stops monitoring, clears the loop and timers,
marks the detector unavailable and does not reschedule. -/
def runDetectionCycle (env : CycleEnv) (s : EngineState) : CycleResult :=
  if env.cancelled ∨ ¬ env.hasDetector ∨ ¬ env.hasVideo then
    ⟨s, false, false⟩
  else if ¬ env.srcObjectBound then
    ⟨resetFlags s, false, true⟩
  else if env.readyState < 2 ∨ env.videoWidth = 0 then
    ⟨s, false, true⟩
  else
    match env.detectResult with
    | .ok faces =>
      let orderedFaces := orderFaces faces
      let r := evalSnapshot orderedFaces env.now env.videoWidth
        env.videoHeight s.noFaceSince s.edgeSince
      let s1 : EngineState :=
        { s with noFaceSince := r.noFaceSince, edgeSince := r.edgeSince }
      let s2 : EngineState :=
        if r.nextFlags.length ≠ 0 then
          { s1 with flags := updateFlagsList r.nextFlags env.now s1.flags }
        else resetFlags s1
      ⟨s2, true, true⟩
    | .error msg =>
      if ¬ env.cancelledDuringDetect then
        let s1 : EngineState :=
          { s with error := some msg, isMonitoring := false,
                   noFaceSince := none, edgeSince := none,
                   detectorAvailable := false, detectorSource := none }
        ⟨resetFlags s1, true, false⟩
      else ⟨s, true, true⟩

/-- Folding a sequence of tick environments through `runDetectionCycle`. -/
def runCycles (envs : List CycleEnv) (s : EngineState) : EngineState :=
  envs.foldl (fun st e => (runDetectionCycle e st).state) s

/-- An environment describing an evaluated tick (stream bound and ready,
detector and video refs present, not cancelled) whose snapshot is empty. -/
def zeroFaceReadyEnv (e : CycleEnv) : Prop :=
  e.cancelled = false ∧ e.hasDetector = true ∧ e.hasVideo = true ∧
  e.srcObjectBound = true ∧ 2 ≤ e.readyState ∧ e.videoWidth ≠ 0 ∧
  e.detectResult = .ok []

/-- A neutral engine state used for concrete evaluations. -/
def initialEngineState : EngineState :=
  { flags := [], noFaceSince := none, edgeSince := none, error := none,
    isMonitoring := true, detectorAvailable := true,
    detectorSource := some .native }

/-- A zero-face ready tick at a given timestamp, used as concrete input. -/
def zeroFaceTick (t : Int) : CycleEnv :=
  { cancelled := false, hasDetector := true, hasVideo := true,
    srcObjectBound := true, readyState := 2, videoWidth := 640,
    videoHeight := 480, detectResult := .ok [], cancelledDuringDetect := false,
    now := t }

/-- A ready tick whose frame surface reports a nonzero width but a zero
height; the guard of lines 396-402 checks only `readyState` and
`videoWidth`, so this tick is not skipped. -/
def zeroHeightTick : CycleEnv :=
  { cancelled := false, hasDetector := true, hasVideo := true,
    srcObjectBound := true, readyState := 2, videoWidth := 640,
    videoHeight := 0, detectResult := .ok [], cancelledDuringDetect := false,
    now := 0 }

/-- A detection result of area 500, as in the ordering scenario. -/
def exampleBoxA : DetectionResult := ⟨⟨0, 0, 25, 20⟩⟩

/-- A detection result of area 900, as in the ordering scenario. -/
def exampleBoxB : DetectionResult := ⟨⟨0, 0, 30, 30⟩⟩

/-- Execution backends tried by `ensureTfModules` (line 90 of the
source). -/
inductive TfBackend
  | webgl
  | cpu
  deriving DecidableEq, Repr

/-- The fixed preference order of `candidateBackends` (line 90). -/
def candidateBackends : List TfBackend := [.webgl, .cpu]

/-- The backend-selection loop of lines 93-109: try each candidate in
order (setBackend and ready inside a try), break on the first success;
with no initialized backend, throw. -/
def initTfBackend (ok : TfBackend → Bool) : Except String TfBackend :=
  match candidateBackends.find? ok with
  | some b => .ok b
  | none => .error "No TensorFlow backend available"

/-- State of the module-level `tfModulesPromise` memo (line 77), modelled
over abstract promise identifiers: `memo` is the currently memoized
promise (if any), `nextId` generates fresh promise identifiers, and
`initsStarted` counts how many initializations were ever started. -/
structure TfMemoState where
  memo : Option Nat
  nextId : Nat
  initsStarted : Nat
  deriving DecidableEq, Repr

/-- A call of `ensureTfModules` (lines 79-121) up to its await: with a
memoized promise it is returned as is; with none, a fresh initialization
is started and memoized, and every caller receives that same promise. -/
def ensureTfModulesCall (s : TfMemoState) : Nat × TfMemoState :=
  match s.memo with
  | some p => (p, s)
  | none =>
    (s.nextId,
     { memo := some s.nextId, nextId := s.nextId + 1,
       initsStarted := s.initsStarted + 1 })

/-- Settlement of the in-flight initialization: on failure the catch of
lines 113-116 nulls `tfModulesPromise` before rethrowing, so a later call
re-attempts; on success the memo is kept. -/
def settleTfModules (ok : TfBackend → Bool) (s : TfMemoState) : TfMemoState :=
  match initTfBackend ok with
  | .ok _ => s
  | .error _ => { s with memo := none }

/-- Environment of one resolution request: whether the native FaceDetector
capability is present (`nativeDetectorSupported`, lines 72-75), which
TensorFlow backends would initialize, and which fallback model runtimes
would successfully construct a detector. -/
structure ResolveEnv where
  nativeSupported : Bool
  webglOk : Bool
  cpuOk : Bool
  tfjsRuntimeOk : Bool
  mediapipeRuntimeOk : Bool
  deriving DecidableEq, Repr

/-- Whether a given backend would initialize in this environment. -/
def backendOk (env : ResolveEnv) : TfBackend → Bool
  | .webgl => env.webglOk
  | .cpu => env.cpuOk

/-- The fallback construction (`createFallbackAdapter`, lines 178-218):
acquire the shared TF modules (running backend selection and settling the
memo), then construct the detection model with the tfjs runtime, retrying
once with the mediapipe runtime before giving up. -/
def createFallbackAdapter (env : ResolveEnv) (tf : TfMemoState) :
    Except String DetectorSource × TfMemoState :=
  let r := ensureTfModulesCall tf
  let tf1 := settleTfModules (backendOk env) r.2
  match initTfBackend (backendOk env) with
  | .error e => (.error e, tf1)
  | .ok _ =>
    if env.tfjsRuntimeOk || env.mediapipeRuntimeOk then (.ok .fallback, tf1)
    else (.error "Unable to initialize fallback face detector", tf1)

/-- `resolveDetector` (lines 220-225): with the native capability present
the native adapter is constructed directly and the fallback path (and the
shared TF memo) is never touched; otherwise the fallback path runs. -/
def resolveDetector (env : ResolveEnv) (tf : TfMemoState) :
    Except String DetectorSource × TfMemoState :=
  if env.nativeSupported then (.ok .native, tf)
  else createFallbackAdapter env tf

end Callify

deriving instance DecidableEq for Except

namespace Callify

instance (e : CycleEnv) : Decidable (zeroFaceReadyEnv e) := by
  unfold zeroFaceReadyEnv; infer_instance

/-!
Helper lemmas about the embedded definitions.
-/

/-- The reset updater always publishes the empty list (an already-empty
previous list is itself empty). -/
lemma resetFlagsList_eq_nil (prev : List MalpracticeFlag) :
    resetFlagsList prev = [] := by
  unfold resetFlagsList
  split
  · rfl
  · next h => simpa [List.length_eq_zero] using h

/-- After a full reset the published flag list is empty. -/
lemma resetFlags_flags (s : EngineState) : (resetFlags s).flags = [] := by
  simp [resetFlags, resetFlagsList_eq_nil]

/-- A zero-face snapshot evaluated with an unarmed no-face timer arms the
timer to the current instant and yields no candidate flags (the elapsed
time is zero, below the 3000 ms threshold). -/
lemma evalSnapshot_nil_of_none (now : Int) (vw vh : ℚ) (es : Option Int) :
    evalSnapshot [] now vw vh none es = ⟨[], some now, none⟩ := by
  simp [evalSnapshot, NO_FACE_THRESHOLD_MS]

/-- Every face-present evaluation clears the no-face timer. -/
lemma evalSnapshot_cons_noFaceSince (p : DetectionResult)
    (rest : List DetectionResult) (now : Int) (vw vh : ℚ)
    (nfs es : Option Int) :
    (evalSnapshot (p :: rest) now vw vh nfs es).noFaceSince = none := by
  unfold evalSnapshot
  dsimp only
  split <;> first | rfl | (split <;> rfl)

/-- A zero-face evaluated tick entered with an unarmed no-face timer
amounts to a full reset (the just-armed timer is wiped again by
`resetFlags` before the tick ends, because the candidate list is empty). -/
lemma runDetectionCycle_zeroFace (e : CycleEnv) (s : EngineState)
    (he : zeroFaceReadyEnv e) (hs : s.noFaceSince = none) :
    runDetectionCycle e s = ⟨resetFlags s, true, true⟩ := by
  obtain ⟨h1, h2, h3, h4, h5, h6, h7⟩ := he
  unfold runDetectionCycle
  rw [if_neg (by simp [h1, h2, h3]), if_neg (by simp [h4]),
      if_neg (by push_neg; exact ⟨h5, h6⟩)]
  rw [h7]
  have hord : orderFaces [] = ([] : List DetectionResult) := rfl
  simp only [hord, hs, evalSnapshot_nil_of_none]
  simp [resetFlags, resetFlagsList_eq_nil]

/-- The no-face timer is unarmed after every tick that started with it
unarmed: the zero-face branch can only push its candidate when the timer
was already old, which is impossible in the tick that arms it, so the
empty-candidate reset wipes the timer again. -/
lemma noFaceSince_none_invariant (env : CycleEnv) (s : EngineState)
    (hs : s.noFaceSince = none) :
    (runDetectionCycle env s).state.noFaceSince = none := by
  unfold runDetectionCycle
  split
  · exact hs
  · split
    · simp [resetFlags]
    · split
      · exact hs
      · split
        · next faces heq =>
          cases hord : orderFaces faces with
          | nil =>
            simp only [hord, hs, evalSnapshot_nil_of_none]
            simp [resetFlags]
          | cons p rest =>
            simp only [hord]
            split
            · simp [evalSnapshot_cons_noFaceSince]
            · simp [resetFlags]
        · split
          · simp [resetFlags]
          · exact hs

/-- Unfolding one step of `runCycles`. -/
lemma runCycles_cons (e : CycleEnv) (t : List CycleEnv) (s : EngineState) :
    runCycles (e :: t) s = runCycles t (runDetectionCycle e s).state := rfl

/-- The comparator of the detection sort is transitive. -/
lemma areaDescLE_trans : ∀ a b c : DetectionResult,
    areaDescLE a b → areaDescLE b c → areaDescLE a c := by
  intro a b c hab hbc
  simp only [areaDescLE, decide_eq_true_eq] at *
  exact le_trans hbc hab

/-- The comparator of the detection sort is total. -/
lemma areaDescLE_total : ∀ a b : DetectionResult,
    areaDescLE a b || areaDescLE b a := by
  intro a b
  simp only [areaDescLE]
  rcases le_total (boxArea b.boundingBox) (boxArea a.boundingBox) with h | h <;>
    simp [h]

/-- Ordering a snapshot does not change its length. -/
lemma orderFaces_length (faces : List DetectionResult) :
    (orderFaces faces).length = faces.length := by
  unfold orderFaces
  split
  · exact List.length_mergeSort faces
  · rfl

/-- The per-index agreement test of `updateFlags` (equal lengths plus a
typewise zip check) holds exactly when the previous flags carry the new
type list in order. -/
lemma zip_all_type_eq_iff : ∀ (l₁ : List MalpracticeFlagType)
    (l₂ : List MalpracticeFlag),
    (l₁.length = l₂.length ∧
      (l₁.zip l₂).all (fun p => decide (p.1 = p.2.type)) = true) ↔
    l₁ = l₂.map (fun f => f.type)
  | [], [] => by simp
  | [], f :: l₂ => by simp
  | t :: l₁, [] => by simp
  | t :: l₁, f :: l₂ => by
    simp only [List.zip_cons_cons, List.all_cons, List.length_cons,
      Nat.succ_inj, Bool.and_eq_true, decide_eq_true_eq, List.map_cons,
      List.cons.injEq]
    rw [← zip_all_type_eq_iff l₁ l₂]
    tauto

/-- A successful map lookup returns a previous flag of the requested
type. -/
lemma previousByTypeGet_some (prev : List MalpracticeFlag)
    (t : MalpracticeFlagType) (e : MalpracticeFlag)
    (h : previousByTypeGet prev t = some e) : e ∈ prev ∧ e.type = t := by
  unfold previousByTypeGet at h
  refine ⟨List.mem_reverse.mp (List.mem_of_find?_eq_some h), ?_⟩
  have := List.find?_some h
  simpa using this

/-- A failed map lookup means no previous flag has the requested type. -/
lemma previousByTypeGet_none (prev : List MalpracticeFlag)
    (t : MalpracticeFlagType) (h : previousByTypeGet prev t = none) :
    ∀ f ∈ prev, f.type ≠ t := by
  intro f hf
  unfold previousByTypeGet at h
  have := List.find?_eq_none.mp h f (List.mem_reverse.mpr hf)
  simpa using this

/-- The map lookup succeeds whenever some previous flag has the requested
type. -/
lemma previousByTypeGet_isSome (prev : List MalpracticeFlag)
    (t : MalpracticeFlagType) (f : MalpracticeFlag) (hf : f ∈ prev)
    (ht : f.type = t) : ∃ e, previousByTypeGet prev t = some e := by
  cases h : previousByTypeGet prev t with
  | some e => exact ⟨e, rfl⟩
  | none => exact absurd ht (previousByTypeGet_none prev t h f hf)

/-- The published list always carries exactly the prioritized filtering of
the requested types, in priority order. -/
lemma updateFlagsList_map_type (types : List MalpracticeFlagType) (ts : Int)
    (prev : List MalpracticeFlag) :
    (updateFlagsList types ts prev).map (fun f => f.type) =
      FLAG_PRIORITY.filter (fun t => decide (t ∈ types)) := by
  simp only [updateFlagsList]
  split
  · next h => exact ((zip_all_type_eq_iff _ prev).mp h).symm
  · rw [List.map_map]
    conv_rhs => rw [← List.map_id
      (List.filter (fun t => decide (t ∈ types)) FLAG_PRIORITY)]
    apply List.map_congr_left
    intro t _
    simp only [Function.comp_apply, id_eq]
    cases hf : previousByTypeGet prev t with
    | some e => exact (previousByTypeGet_some prev t e hf).2
    | none => rfl

/-- A snapshot with at least two faces always produces exactly the
multiple-faces candidate: the edge candidate is suppressed by the
`!nextFlags.includes(multiple-faces-detected)` conjunct. -/
lemma evalSnapshot_multi_nextFlags (a b : DetectionResult)
    (t : List DetectionResult) (now : Int) (vw vh : ℚ)
    (nfs es : Option Int) :
    (evalSnapshot (a :: b :: t) now vw vh nfs es).nextFlags =
      [.multipleFacesDetected] := by
  unfold evalSnapshot
  dsimp only
  split
  · split
    · dsimp only
      simp
    · simp
  · simp

/-- Necessary conditions for the edge candidate on a face-present
snapshot: nonzero dimensions, the primary box within the margin, an edge
timer armed at least 1500 ms ago, and no concurrent multiple-faces
candidate. -/
lemma evalSnapshot_edge_candidacy (primary : DetectionResult)
    (rest : List DetectionResult) (now : Int) (vw vh : ℚ)
    (nfs es : Option Int)
    (hmem : MalpracticeFlagType.faceNearFrameEdge ∈
      (evalSnapshot (primary :: rest) now vw vh nfs es).nextFlags) :
    vw ≠ 0 ∧ vh ≠ 0 ∧
    touchesEdge primary.boundingBox vw vh ∧
    (∃ t0, es = some t0 ∧ now - t0 ≥ EDGE_THRESHOLD_MS) ∧
    MalpracticeFlagType.multipleFacesDetected ∉
      (evalSnapshot (primary :: rest) now vw vh nfs es).nextFlags := by
  unfold evalSnapshot at hmem ⊢
  dsimp only at hmem ⊢
  by_cases hdims : vw ≠ 0 ∧ vh ≠ 0
  · rw [if_pos hdims] at hmem ⊢
    by_cases htouch : touchesEdge primary.boundingBox vw vh
    · rw [if_pos htouch] at hmem ⊢
      dsimp only at hmem ⊢
      cases es with
      | none =>
        exfalso
        rw [if_neg (by
          rintro ⟨h1, -⟩
          simp only [Int.sub_self] at h1
          exact absurd h1 (by norm_num [EDGE_THRESHOLD_MS]))] at hmem
        revert hmem
        split <;> simp
      | some t0 =>
        by_cases hcond : now - t0 ≥ EDGE_THRESHOLD_MS ∧
            MalpracticeFlagType.multipleFacesDetected ∉
              (if rest.length + 1 > 1 then
                [MalpracticeFlagType.multipleFacesDetected]
              else ([] : List MalpracticeFlagType))
        · rw [if_pos hcond] at hmem ⊢
          obtain ⟨hthres, hnotmulti⟩ := hcond
          refine ⟨hdims.1, hdims.2, htouch, ⟨t0, rfl, hthres⟩, ?_⟩
          intro hmem2
          rcases List.mem_append.mp hmem2 with h | h
          · exact hnotmulti h
          · simp at h
        · exfalso
          rw [if_neg hcond] at hmem
          revert hmem
          split <;> simp
    · exfalso
      rw [if_neg htouch] at hmem
      revert hmem
      split <;> simp
  · exfalso
    rw [if_neg hdims] at hmem
    revert hmem
    split <;> simp

end Callify

namespace Callify

/-!
Claim theorems.
-/

/-- C1: against the claim, within a maximal run of evaluated zero-face
ticks (frame source bound and ready) entered with the no-face timer
unarmed, the NoFace flag never becomes active: because an empty candidate
list triggers `resetFlags`, which also nulls `noFaceSinceRef`, the no-face
timer is wiped on every tick of the run and the 3000 ms threshold is never
reached. The first conjunct shows the timer is unarmed after every tick
that starts with it unarmed (so the run hypothesis holds at every
reachable run start); the second shows every such run keeps the published
flag list empty and the timer unarmed, for runs of any length and any
timestamps. -/
theorem noFace_flag_never_activates :
    (∀ env s, s.noFaceSince = none →
      (runDetectionCycle env s).state.noFaceSince = none) ∧
    (∀ s envs, s.noFaceSince = none → (∀ e ∈ envs, zeroFaceReadyEnv e) →
      envs ≠ [] →
      (runCycles envs s).flags = [] ∧
      (runCycles envs s).noFaceSince = none) := by
  constructor
  · exact noFaceSince_none_invariant
  · intro s envs hs he hne
    induction envs generalizing s with
    | nil => exact absurd rfl hne
    | cons e t ih =>
      have he1 : zeroFaceReadyEnv e := he e (by simp)
      have hstep := runDetectionCycle_zeroFace e s he1 hs
      rw [runCycles_cons, hstep]
      cases t with
      | nil =>
        refine ⟨resetFlags_flags s, ?_⟩
        simp [runCycles, resetFlags]
      | cons e2 t2 =>
        exact ih (resetFlags s) (by simp [resetFlags])
          (fun x hx => he x (List.mem_cons_of_mem e hx)) (by simp)

/-- Witness for C1: six consecutive zero-face ready ticks at 750 ms
intervals (0 through 3750 ms) leave the published flag list empty, where
the claim expects the NoFace flag from the 3000 ms tick onwards. -/
theorem noFace_flag_never_activates_witness :
    (runCycles [zeroFaceTick 0, zeroFaceTick 750, zeroFaceTick 1500,
      zeroFaceTick 2250, zeroFaceTick 3000, zeroFaceTick 3750]
      initialEngineState).flags = [] ∧
    (runCycles [zeroFaceTick 0, zeroFaceTick 750, zeroFaceTick 1500,
      zeroFaceTick 2250, zeroFaceTick 3000, zeroFaceTick 3750]
      initialEngineState).noFaceSince = none :=
  noFace_flag_never_activates.2 initialEngineState _ rfl (by decide) (by simp)

/-- C2: the FaceNearEdge candidate requires a non-empty snapshot, nonzero
frame dimensions, the primary (first, largest-area) box within the 8
percent margin, an edge timer armed at least 1500 ms before the current
tick, and no concurrent MultipleFaces candidate; consequently any
evaluated tick whose snapshot has at least two faces publishes exactly the
MultipleFaces flag, never FaceNearEdge. -/
theorem faceNearEdge_candidacy_and_multiFace_exclusion :
    (∀ (ordered : List DetectionResult) (now : Int) (vw vh : ℚ)
      (nfs es : Option Int),
      MalpracticeFlagType.faceNearFrameEdge ∈
        (evalSnapshot ordered now vw vh nfs es).nextFlags →
      ∃ primary rest, ordered = primary :: rest ∧
        vw ≠ 0 ∧ vh ≠ 0 ∧
        touchesEdge primary.boundingBox vw vh ∧
        (∃ t0, es = some t0 ∧ now - t0 ≥ EDGE_THRESHOLD_MS) ∧
        MalpracticeFlagType.multipleFacesDetected ∉
          (evalSnapshot ordered now vw vh nfs es).nextFlags) ∧
    (∀ (env : CycleEnv) (s : EngineState) (faces : List DetectionResult),
      env.cancelled = false → env.hasDetector = true →
      env.hasVideo = true → env.srcObjectBound = true →
      2 ≤ env.readyState → env.videoWidth ≠ 0 →
      env.detectResult = .ok faces → 2 ≤ faces.length →
      (runDetectionCycle env s).state.flags.map (fun f => f.type) =
        [.multipleFacesDetected]) := by
  constructor
  · intro ordered now vw vh nfs es hmem
    match ordered with
    | [] =>
      exfalso
      revert hmem
      unfold evalSnapshot
      dsimp only
      split <;> simp
    | primary :: rest =>
      exact ⟨primary, rest, rfl,
        evalSnapshot_edge_candidacy primary rest now vw vh nfs es hmem⟩
  · intro env s faces hc hd hv hb hr hw hres hlen
    unfold runDetectionCycle
    rw [if_neg (by simp [hc, hd, hv]), if_neg (by simp [hb]),
        if_neg (by push_neg; exact ⟨hr, hw⟩), hres]
    dsimp only
    have hlen2 : 2 ≤ (orderFaces faces).length := by
      rw [orderFaces_length]; exact hlen
    cases ho : orderFaces faces with
    | nil => rw [ho] at hlen2; simp at hlen2
    | cons a rest =>
      cases rest with
      | nil => rw [ho] at hlen2; simp at hlen2
      | cons b t =>
        simp only [ho, evalSnapshot_multi_nextFlags]
        rw [if_pos (by simp)]
        dsimp only
        rw [updateFlagsList_map_type]
        decide

/-- Witness for C2: a two-face tick (areas 500 and 900) publishes exactly
the MultipleFaces flag. -/
theorem faceNearEdge_candidacy_and_multiFace_exclusion_witness :
    (runDetectionCycle
      { zeroFaceTick 0 with
          detectResult := .ok [exampleBoxA, exampleBoxB] }
      initialEngineState).state.flags.map (fun f => f.type) =
      [.multipleFacesDetected] :=
  faceNearEdge_candidacy_and_multiFace_exclusion.2 _ initialEngineState
    [exampleBoxA, exampleBoxB] rfl rfl rfl rfl (by decide) (by decide) rfl
    (by decide)

/-- C3: when the prioritized type list matches the previously published
list in membership and order, `updateFlags` returns the previous list
itself; otherwise (and in general) the published list carries exactly the
prioritized types, every type already active keeps its previous Flag
record (hence its `since`), and every newly active type gets a fresh Flag
stamped with the current tick timestamp. Distinct previous types is an
invariant of all published lists (they are built from the duplicate-free
`FLAG_PRIORITY`). -/
theorem updateFlags_retains_or_rebuilds (types : List MalpracticeFlagType)
    (ts : Int) (prev : List MalpracticeFlag)
    (hnd : (prev.map (fun f => f.type)).Nodup) :
    (FLAG_PRIORITY.filter (fun t => decide (t ∈ types)) =
        prev.map (fun f => f.type) →
      updateFlagsList types ts prev = prev) ∧
    (updateFlagsList types ts prev).map (fun f => f.type) =
      FLAG_PRIORITY.filter (fun t => decide (t ∈ types)) ∧
    (∀ f ∈ prev,
      f.type ∈ FLAG_PRIORITY.filter (fun t => decide (t ∈ types)) →
      f ∈ updateFlagsList types ts prev) ∧
    (∀ t ∈ FLAG_PRIORITY.filter (fun t => decide (t ∈ types)),
      t ∉ prev.map (fun f => f.type) →
      ({ type := t, message := FLAG_MESSAGES t, since := ts } :
        MalpracticeFlag) ∈ updateFlagsList types ts prev) := by
  refine ⟨?_, updateFlagsList_map_type types ts prev, ?_, ?_⟩
  · intro h
    simp only [updateFlagsList]
    rw [if_pos ((zip_all_type_eq_iff _ prev).mpr h)]
  · intro f hf hft
    simp only [updateFlagsList]
    split
    · exact hf
    · obtain ⟨e, he⟩ := previousByTypeGet_isSome prev f.type f hf rfl
      obtain ⟨hemem, hetype⟩ := previousByTypeGet_some prev f.type e he
      have hef : e = f := List.inj_on_of_nodup_map hnd hemem hf hetype
      refine List.mem_map.mpr ⟨f.type, hft, ?_⟩
      rw [he, hef]
  · intro t ht htm
    simp only [updateFlagsList]
    split
    · next h =>
      exact absurd (((zip_all_type_eq_iff _ prev).mp h) ▸ ht) htm
    · have hnone : previousByTypeGet prev t = none := by
        cases h : previousByTypeGet prev t with
        | none => rfl
        | some e =>
          obtain ⟨hemem, hetype⟩ := previousByTypeGet_some prev t e h
          exact absurd (List.mem_map.mpr ⟨e, hemem, hetype⟩) htm
      refine List.mem_map.mpr ⟨t, ht, ?_⟩
      rw [hnone]

/-- Witness for C3: an unchanged singleton list is returned as is
(preserving `since` 1), and a newly active type is stamped with the
current timestamp 5. -/
theorem updateFlags_retains_or_rebuilds_witness :
    updateFlagsList [.multipleFacesDetected] 5
      [{ type := .multipleFacesDetected,
         message := FLAG_MESSAGES .multipleFacesDetected, since := 1 }] =
      [{ type := .multipleFacesDetected,
         message := FLAG_MESSAGES .multipleFacesDetected, since := 1 }] ∧
    ({ type := MalpracticeFlagType.noFaceDetected,
       message := FLAG_MESSAGES .noFaceDetected, since := 5 } :
      MalpracticeFlag) ∈ updateFlagsList [.noFaceDetected] 5 [] :=
  ⟨(updateFlags_retains_or_rebuilds [.multipleFacesDetected] 5 _
      (by decide)).1 (by decide),
   (updateFlags_retains_or_rebuilds [.noFaceDetected] 5 []
      (by decide)).2.2.2 .noFaceDetected (by decide) (by decide)⟩

/-- C4: a tick with no bound stream, and an evaluated tick whose candidate
list is empty, both leave the published flag list empty and both condition
timers cleared. -/
theorem reset_on_no_candidates_or_unbound_stream (env : CycleEnv)
    (s : EngineState) (hc : env.cancelled = false)
    (hd : env.hasDetector = true) (hv : env.hasVideo = true) :
    (env.srcObjectBound = false →
      (runDetectionCycle env s).state.flags = [] ∧
      (runDetectionCycle env s).state.noFaceSince = none ∧
      (runDetectionCycle env s).state.edgeSince = none) ∧
    (∀ faces, env.srcObjectBound = true → 2 ≤ env.readyState →
      env.videoWidth ≠ 0 → env.detectResult = .ok faces →
      (evalSnapshot (orderFaces faces) env.now env.videoWidth
        env.videoHeight s.noFaceSince s.edgeSince).nextFlags = [] →
      (runDetectionCycle env s).state.flags = [] ∧
      (runDetectionCycle env s).state.noFaceSince = none ∧
      (runDetectionCycle env s).state.edgeSince = none) := by
  constructor
  · intro hb
    unfold runDetectionCycle
    rw [if_neg (by simp [hc, hd, hv]), if_pos (by simp [hb])]
    exact ⟨resetFlags_flags s, rfl, rfl⟩
  · intro faces hb hr hw hres hflags
    unfold runDetectionCycle
    rw [if_neg (by simp [hc, hd, hv]), if_neg (by simp [hb]),
        if_neg (by push_neg; exact ⟨hr, hw⟩), hres]
    simp only [hflags, List.length_nil, ne_eq, not_true_eq_false, if_false]
    exact ⟨resetFlags_flags _, rfl, rfl⟩

/-- Witness for C4: a tick with no bound stream clears the published list
and both timers. -/
theorem reset_on_no_candidates_or_unbound_stream_witness :
    (runDetectionCycle { zeroFaceTick 0 with srcObjectBound := false }
      initialEngineState).state.flags = [] ∧
    (runDetectionCycle { zeroFaceTick 0 with srcObjectBound := false }
      initialEngineState).state.noFaceSince = none ∧
    (runDetectionCycle { zeroFaceTick 0 with srcObjectBound := false }
      initialEngineState).state.edgeSince = none :=
  (reset_on_no_candidates_or_unbound_stream _ initialEngineState
    rfl rfl rfl).1 rfl

/-- C5: the ordered snapshot is a permutation of the adapter result,
sorted descending by bounding-box area, ties keeping the original adapter
order (equal-area pairs stay in their input order), and on the scenario
input of areas 500 and 900 the larger-area box comes first. -/
theorem orderFaces_sorted_desc_stable (faces : List DetectionResult) :
    List.Perm (orderFaces faces) faces ∧
    (orderFaces faces).Pairwise
      (fun a b => boxArea b.boundingBox ≤ boxArea a.boundingBox) ∧
    (∀ a b, List.Sublist [a, b] faces →
      boxArea a.boundingBox = boxArea b.boundingBox →
      List.Sublist [a, b] (orderFaces faces)) ∧
    orderFaces [exampleBoxA, exampleBoxB] = [exampleBoxB, exampleBoxA] := by
  refine ⟨?_, ?_, ?_, ?_⟩
  · unfold orderFaces
    split
    · exact List.mergeSort_perm faces areaDescLE
    · exact List.Perm.refl faces
  · unfold orderFaces
    split
    · exact (List.sorted_mergeSort areaDescLE_trans areaDescLE_total
        faces).imp (by intro a b h; simpa [areaDescLE] using h)
    · next h =>
      match faces with
      | [] => exact List.Pairwise.nil
      | [a] => exact List.pairwise_singleton _ a
      | a :: b :: t => exact absurd (by simp) h
  · intro a b hsub harea
    unfold orderFaces
    split
    · exact List.pair_sublist_mergeSort areaDescLE_trans areaDescLE_total
        (by simp [areaDescLE, harea]) hsub
    · exact hsub
  · unfold orderFaces
    rw [if_pos (by simp)]
    simp [List.mergeSort, List.merge, areaDescLE, boxArea, exampleBoxA,
      exampleBoxB]
    norm_num

/-- Witness for C5: the stability conjunct applied to an equal-area pair
of a concrete snapshot. -/
theorem orderFaces_sorted_desc_stable_witness :
    List.Sublist [exampleBoxA, exampleBoxA]
      (orderFaces [exampleBoxA, exampleBoxA]) :=
  (orderFaces_sorted_desc_stable [exampleBoxA, exampleBoxA]).2.2.1
    exampleBoxA exampleBoxA (List.Sublist.refl _) rfl

/-- C6: an adapter throw on an evaluated tick (cancellation not observed)
yields the fatal shutdown state: error set to the thrown message,
monitoring stopped, detector marked unavailable with its source cleared,
flags and both condition timers cleared, and no next tick scheduled. -/
theorem detect_throw_fatal_shutdown (env : CycleEnv) (s : EngineState)
    (msg : String)
    (hc : env.cancelled = false) (hd : env.hasDetector = true)
    (hv : env.hasVideo = true) (hb : env.srcObjectBound = true)
    (hr : 2 ≤ env.readyState) (hw : env.videoWidth ≠ 0)
    (hres : env.detectResult = .error msg)
    (hcd : env.cancelledDuringDetect = false) :
    runDetectionCycle env s =
      ⟨{ flags := [], noFaceSince := none, edgeSince := none,
         error := some msg, isMonitoring := false,
         detectorAvailable := false, detectorSource := none },
       true, false⟩ := by
  unfold runDetectionCycle
  rw [if_neg (by simp [hc, hd, hv]), if_neg (by simp [hb]),
      if_neg (by push_neg; exact ⟨hr, hw⟩), hres]
  simp [hcd, resetFlags, resetFlagsList_eq_nil]

/-- Witness for C6: a concrete throwing tick produces exactly the fatal
state with no reschedule. -/
theorem detect_throw_fatal_shutdown_witness :
    runDetectionCycle
      { zeroHeightTick with
          videoHeight := 480,
          detectResult := .error "model crashed" }
      initialEngineState =
      ⟨{ flags := [], noFaceSince := none, edgeSince := none,
         error := some "model crashed", isMonitoring := false,
         detectorAvailable := false, detectorSource := none },
       true, false⟩ :=
  detect_throw_fatal_shutdown _ initialEngineState "model crashed"
    rfl rfl rfl rfl (by decide) (by decide) rfl rfl

/-- C7: with the native capability present, resolution returns the native
adapter and leaves the shared TF memo state (including the count of
started initializations) untouched: the fallback path never runs. -/
theorem resolveDetector_native_no_fallback_init (env : ResolveEnv)
    (tf : TfMemoState) (h : env.nativeSupported = true) :
    resolveDetector env tf = (.ok .native, tf) := by
  simp [resolveDetector, h]

/-- Witness for C7: concrete native resolution leaves an empty memo state
unchanged. -/
theorem resolveDetector_native_no_fallback_init_witness :
    resolveDetector
      { nativeSupported := true, webglOk := false, cpuOk := false,
        tfjsRuntimeOk := false, mediapipeRuntimeOk := false }
      { memo := none, nextId := 0, initsStarted := 0 } =
      (.ok .native, { memo := none, nextId := 0, initsStarted := 0 }) :=
  resolveDetector_native_no_fallback_init _ _ rfl

/-- C8: the shared TF handle is memoized (a memoized promise is returned
unchanged; from an empty memo the first call starts exactly one
initialization and an immediately following call shares it); a failed
settlement empties the memo and the next call starts a fresh
initialization; and backend selection takes webgl first, cpu second, the
first success winning, with an error when both fail. -/
theorem tf_memoization_and_backend_chain :
    (∀ s p, s.memo = some p → ensureTfModulesCall s = (p, s)) ∧
    (∀ s : TfMemoState, s.memo = none →
      (ensureTfModulesCall s).2.initsStarted = s.initsStarted + 1 ∧
      ensureTfModulesCall (ensureTfModulesCall s).2 =
        ((ensureTfModulesCall s).1, (ensureTfModulesCall s).2)) ∧
    (∀ (s : TfMemoState) (ok : TfBackend → Bool) (e : String),
      initTfBackend ok = .error e →
      (settleTfModules ok s).memo = none ∧
      (ensureTfModulesCall (settleTfModules ok s)).2.initsStarted =
        (settleTfModules ok s).initsStarted + 1) ∧
    (∀ ok : TfBackend → Bool,
      (ok .webgl = true → initTfBackend ok = .ok .webgl) ∧
      (ok .webgl = false → ok .cpu = true → initTfBackend ok = .ok .cpu) ∧
      (ok .webgl = false → ok .cpu = false →
        initTfBackend ok = .error "No TensorFlow backend available")) := by
  refine ⟨?_, ?_, ?_, ?_⟩
  · intro s p h
    simp [ensureTfModulesCall, h]
  · intro s h
    simp [ensureTfModulesCall, h]
  · intro s ok e h
    have hm : (settleTfModules ok s).memo = none := by
      unfold settleTfModules
      rw [h]
    exact ⟨hm, by simp [ensureTfModulesCall, hm]⟩
  · intro ok
    refine ⟨?_, ?_, ?_⟩
    · intro h
      simp [initTfBackend, candidateBackends, List.find?, h]
    · intro h1 h2
      simp [initTfBackend, candidateBackends, List.find?, h1, h2]
    · intro h1 h2
      simp [initTfBackend, candidateBackends, List.find?, h1, h2]

/-- Witness for C8: a memoized promise is returned unchanged, a fresh
memo starts exactly one initialization, and with webgl failing the chain
selects cpu. -/
theorem tf_memoization_and_backend_chain_witness :
    ensureTfModulesCall { memo := some 7, nextId := 8, initsStarted := 3 } =
      (7, { memo := some 7, nextId := 8, initsStarted := 3 }) ∧
    (ensureTfModulesCall
      { memo := none, nextId := 0, initsStarted := 0 }).2.initsStarted = 1 ∧
    initTfBackend (fun b => match b with | .webgl => false | .cpu => true) =
      .ok .cpu :=
  ⟨tf_memoization_and_backend_chain.1 _ 7 rfl,
   (tf_memoization_and_backend_chain.2.1 _ rfl).1,
   (tf_memoization_and_backend_chain.2.2.2 _).2.1 rfl rfl⟩

/-- C9 counterexample: a tick with a bound stream, data ready, nonzero
width but zero intrinsic height is not skipped: the adapter is invoked,
refuting the claim that a zero dimension (width or height) always causes a
reschedule without invoking the adapter. The guard of lines 396-402 only
checks `readyState` and `videoWidth`. -/
theorem zero_height_does_not_skip_detection :
    zeroHeightTick.srcObjectBound = true ∧
    zeroHeightTick.videoHeight = 0 ∧
    2 ≤ zeroHeightTick.readyState ∧
    (runDetectionCycle zeroHeightTick initialEngineState).adapterInvoked =
      true := by
  decide

/-- C9 (amended): a tick with a bound stream is skipped, rescheduled, and
leaves the state untouched with the adapter not invoked, exactly when the
frame surface has no data yet (readyState below 2) or reports zero
intrinsic width. -/
theorem skip_iff_no_data_or_zero_width (env : CycleEnv) (s : EngineState)
    (hc : env.cancelled = false) (hd : env.hasDetector = true)
    (hv : env.hasVideo = true) (hb : env.srcObjectBound = true)
    (hskip : env.readyState < 2 ∨ env.videoWidth = 0) :
    runDetectionCycle env s = ⟨s, false, true⟩ := by
  unfold runDetectionCycle
  rw [if_neg (by simp [hc, hd, hv]), if_neg (by simp [hb]), if_pos hskip]

/-- Witness for C9 (amended): a not-yet-ready tick reschedules without
invoking the adapter. -/
theorem skip_iff_no_data_or_zero_width_witness :
    runDetectionCycle
      { zeroHeightTick with readyState := 1, videoHeight := 480 }
      initialEngineState = ⟨initialEngineState, false, true⟩ :=
  skip_iff_no_data_or_zero_width _ initialEngineState rfl rfl rfl rfl
    (Or.inl (by decide))

/-- C10: resetting with an already-empty published list returns the very
previous (empty) list, so no update is published, while both condition
timers are still cleared; and applying the reset twice equals applying it
once. -/
theorem resetFlags_idempotent_and_quiescent :
    (∀ prev : List MalpracticeFlag, prev = [] → resetFlagsList prev = prev) ∧
    (∀ s : EngineState, s.flags = [] →
      resetFlags s = { s with noFaceSince := none, edgeSince := none }) ∧
    (∀ s : EngineState, resetFlags (resetFlags s) = resetFlags s) := by
  refine ⟨?_, ?_, ?_⟩
  · intro prev h
    simp [resetFlagsList, h]
  · intro s h
    simp [resetFlags, resetFlagsList, h]
  · intro s
    simp [resetFlags, resetFlagsList_eq_nil]

/-- Witness for C10: concrete empty-list reset and full-state reset. -/
theorem resetFlags_idempotent_and_quiescent_witness :
    resetFlagsList [] = [] ∧
    resetFlags initialEngineState =
      { initialEngineState with noFaceSince := none, edgeSince := none } :=
  ⟨resetFlags_idempotent_and_quiescent.1 [] rfl,
   resetFlags_idempotent_and_quiescent.2.1 initialEngineState rfl⟩

end Callify
